import Mathlib

/-!
Verification of the client-side state layer and API client of the Bob Emploi
frontend (React/Redux job coaching application).

Two subsystems are embedded:

* The API client (`frontend/src/store/api.js`): `cleanHtmlError`,
  `handleJsonResponse`, `postJson`, `deleteJson` and the domain wrappers
  `saveLikes`, `feedbackPost`, `userPost`.  JavaScript promises are modelled
  as explicit outcome values; the browser `fetch` primitive is a function
  parameter from requests to either a network-level failure or an HTTP
  response.  `fetch` only rejects on network failure, never on HTTP status.

* The `user` reducer of the Redux store (`store/user_reducer`).  Its source
  file is not part of the corpus (only its unit tests are), so the reducer is
  modelled from the specification, following the tests.
-/

namespace BobEmploi

/-- JSON values, as sent and received by the API client.  Numbers are
modelled as integers; no claim depends on fractional numeric payloads. -/
inductive Json where
  | null
  | bool (b : Bool)
  | num (n : Int)
  | str (s : String)
  | arr (elems : List Json)
  | obj (fields : List (String × Json))

/-- A DOM tree as built by the browser when `cleanHtmlError` assigns the
error page to `page.innerHTML`: element nodes with a tag and children, and
text nodes.  The HTML parser canonicalizes element tag names of an HTML
document to uppercase (the DOM `tagName`), so tags here are stored in
that canonical uppercase form and tag lookup is plain equality on
canonical names — `api.js` queries with the already-canonical `P`. -/
inductive Html where
  | text (s : String)
  | elem (tag : String) (children : List Html)

mutual

/-- Text content of a DOM node (the `innerText` property): concatenation of
all text nodes below it, in document order. -/
def Html.innerText : Html → String
  | .text s => s
  | .elem _ children => Html.innerTextList children

/-- Text content of a list of sibling DOM nodes. -/
def Html.innerTextList : List Html → String
  | [] => ""
  | c :: cs => Html.innerText c ++ Html.innerTextList cs

end

mutual

/-- All descendant elements of a node with the given canonical tag, in
document order (the DOM `getElementsByTagName`). -/
def Html.descendantsByTagName (tag : String) : Html → List Html
  | .text _ => []
  | .elem t cs =>
      (if t = tag then [Html.elem t cs] else [])
        ++ Html.descendantsByTagNameList tag cs

/-- Descendant elements with the given tag over a list of sibling nodes. -/
def Html.descendantsByTagNameList (tag : String) : List Html → List Html
  | [] => []
  | c :: cs =>
      Html.descendantsByTagName tag c ++ Html.descendantsByTagNameList tag cs

end

/-- The synthetic `<html>` element whose `innerHTML` is set to the error
page; `getElementsByTagName` searches its descendants, excluding itself. -/
def Html.getElementsByTagName (tag : String) (page : Html) : List Html :=
  match page with
  | .text _ => []
  | .elem _ cs => Html.descendantsByTagNameList tag cs

/-- Embeds `cleanHtmlError` of `api.js`: the text content of the first `<p>`
element of the error page, falling back to the whole page's text when there
is no paragraph or its text is empty (JavaScript:
`content.length && content[0].innerText || page.innerText`, where both a
zero length and an empty string are falsy). -/
def cleanHtmlError (htmlErrorPage : Html) : String :=
  let content := Html.getElementsByTagName "P" htmlErrorPage
  match content with
  | [] => htmlErrorPage.innerText
  | p :: _ => if p.innerText = "" then htmlErrorPage.innerText else p.innerText

/-- An HTTP response as seen by the API client: the status code, the body as
the DOM tree the browser parses it into (`response.text()` feeding
`innerHTML`), and the result of `response.json()` (an error for a malformed
JSON body). -/
structure Response where
  status : Nat
  body : Html
  json : Except String Json

/-- Errors carried by a rejected API future: an HTTP error status with the
message extracted from the body, a JSON parse error, or a network-level
failure of `fetch` itself. -/
inductive ApiError where
  | http (message : String)
  | parse (message : String)
  | network (message : String)
deriving Repr

/-- Embeds `handleJsonResponse` of `api.js`: a status outside [200, 399]
rejects with the message extracted from the HTML body; otherwise the decoded
JSON body is returned (`response.json()`). -/
def handleJsonResponse (response : Response) : Except ApiError Json :=
  if 400 ≤ response.status ∨ response.status < 200 then
    Except.error (ApiError.http (cleanHtmlError response.body))
  else
    match response.json with
    | Except.ok v => Except.ok v
    | Except.error e => Except.error (ApiError.parse e)

/-- An HTTP request issued through `fetch`: the full URL, the method, and
the JSON payload (the `JSON.stringify`-ed body; `none` when the call sends
no body, as in `markUsedAndRetrievePost`). -/
structure Request where
  url : String
  method : String
  body : Option Json

/-- The behaviour of the browser `fetch` primitive: it either rejects with a
network-level error message or resolves with an HTTP response — regardless
of the response's status code. -/
def FetchImpl : Type := Request → Except String Response

/-- Outcome of an API-client call: resolved with a decoded JSON value (calls
expecting a response), resolved with the raw HTTP response (posts not
expecting a response), or rejected. -/
inductive PostOutcome where
  | json (v : Json)
  | response (r : Response)
  | error (e : ApiError)

/-- True exactly when the outcome is a rejected future. -/
def PostOutcome.isRejected : PostOutcome → Bool
  | .error _ => true
  | _ => false

/-- The request `postJson` builds: the configured backend host followed by
the path, the POST method, and the JSON payload. -/
def postRequest (backendHostName path : String) (data : Option Json) :
    Request :=
  { url := backendHostName ++ path, method := "post", body := data }

/-- Dispatch of a built request: a network failure rejects; otherwise, when
a response is expected the HTTP response goes through `handleJsonResponse`,
and when none is expected the raw response resolves as is. -/
def sendRequest (fetchImpl : FetchImpl) (req : Request)
    (isExpectingResponse : Bool) : PostOutcome :=
  match fetchImpl req with
  | Except.error e => PostOutcome.error (ApiError.network e)
  | Except.ok r =>
      if isExpectingResponse then
        match handleJsonResponse r with
        | Except.ok v => PostOutcome.json v
        | Except.error e => PostOutcome.error e
      else PostOutcome.response r

/-- Embeds `postJson` of `api.js`. -/
def postJson (fetchImpl : FetchImpl) (backendHostName path : String)
    (data : Option Json) (isExpectingResponse : Bool) : PostOutcome :=
  sendRequest fetchImpl (postRequest backendHostName path data)
    isExpectingResponse

/-- The request `deleteJson` builds: same URL scheme and JSON body as a
post, with the DELETE method. -/
def deleteRequest (backendHostName path : String) (data : Json) : Request :=
  { url := backendHostName ++ path, method := "delete", body := some data }

/-- Embeds `deleteJson` of `api.js`: issues a DELETE request and always
pipes the response through `handleJsonResponse`. -/
def deleteJson (fetchImpl : FetchImpl) (backendHostName path : String)
    (data : Json) : Except ApiError Json :=
  match fetchImpl (deleteRequest backendHostName path data) with
  | Except.error e => Except.error (ApiError.network e)
  | Except.ok r => handleJsonResponse r

/-- The request `getJson` builds: a bare `fetch(url)`, which uses the GET
method and sends no body. -/
def getRequest (backendHostName path : String) : Request :=
  { url := backendHostName ++ path, method := "get", body := none }

/-- Embeds `getJson` of `api.js`: issues a GET request and always pipes the
response through `handleJsonResponse`. -/
def getJson (fetchImpl : FetchImpl) (backendHostName path : String) :
    Except ApiError Json :=
  match fetchImpl (getRequest backendHostName path) with
  | Except.error e => Except.error (ApiError.network e)
  | Except.ok r => handleJsonResponse r

/-- Embeds `saveLikes` of `api.js`: a post to `/api/user/likes` that does
not expect a response. -/
def saveLikes (fetchImpl : FetchImpl) (backendHostName : String)
    (userId : String) (likes : Json) : PostOutcome :=
  postJson fetchImpl backendHostName "/api/user/likes"
    (some (Json.obj [("likes", likes), ("userId", Json.str userId)])) false

/-- Embeds `feedbackPost` of `api.js`: a post to `/api/feedback` that does
not expect a response. -/
def feedbackPost (fetchImpl : FetchImpl) (backendHostName : String)
    (feedback : Json) : PostOutcome :=
  postJson fetchImpl backendHostName "/api/feedback" (some feedback) false

/-- Removal of one key from a JSON object's field list, as done by the rest
destructuring `const \x7bonboardingComplete, ...protoUser\x7d = user`. -/
def removeObjField (key : String) (fields : List (String × Json)) :
    List (String × Json) :=
  fields.filter fun kv => kv.fst ≠ key

/-- The request `userPost` builds: a POST to `/api/user` whose body is the
user object with the `onboardingComplete` field removed. -/
def userPostRequest (backendHostName : String)
    (userFields : List (String × Json)) : Request :=
  postRequest backendHostName "/api/user"
    (some (Json.obj (removeObjField "onboardingComplete" userFields)))

/-- Embeds `userPost` of `api.js`: strips `onboardingComplete` from the user
object and posts the rest to `/api/user`, expecting a response. -/
def userPost (fetchImpl : FetchImpl) (backendHostName : String)
    (userFields : List (String × Json)) : PostOutcome :=
  sendRequest fetchImpl (userPostRequest backendHostName userFields) true

/-! The `user` reducer of the Redux store.  The file `store/user_reducer`
itself is not part of the corpus — only its unit tests and the specification
describe it — so the definitions below are modelled from the specification,
checked against the behaviours the unit tests pin down. -/

/-- Status of a domain Action, per the action state machine of the spec. -/
inductive ActionStatus where
  | unread
  | current
  | stuck
  | done
  | snoozed
  | declined
  | stickyDone
  | saved
deriving DecidableEq, Repr

/-- A domain Action of a project, reduced to the fields the state layer
manipulates: its identifier and its status. -/
structure StoreAction where
  actionId : String := ""
  status : ActionStatus := ActionStatus.unread
deriving DecidableEq, Repr

/-- A Project of the user, reduced to the fields the reducer claims
manipulate: `title` and `target` (absent when `undefined` in JavaScript),
the `isIncomplete` flag (false when absent, matching JavaScript falsiness),
and the project's actions. -/
structure Project where
  title : Option String := none
  target : Option String := none
  isIncomplete : Bool := false
  actions : List StoreAction := []
deriving DecidableEq, Repr

/-- The user-shaped Redux state: the optional `projects` sequence (absent
before any project exists), plus all other fields of the state object,
which the reducer spreads through untouched (the tests' `foo: bar`). -/
structure UserState where
  projects : Option (List Project) := none
  otherFields : List (String × String) := []
deriving DecidableEq, Repr

/-- An intent (a Redux action): a `type` tag plus the optional payloads the
recognized intents carry. -/
structure Intent where
  type : String
  project : Option Project := none
  action : Option StoreAction := none
deriving DecidableEq, Repr

/-- Intent type tag for creating the first project. -/
def CREATE_PROJECT : String := "CREATE_PROJECT"

/-- Intent type tag for editing the first (incomplete) project. -/
def EDIT_FIRST_PROJECT : String := "EDIT_FIRST_PROJECT"

/-- Intent type tag for saving an action (the tip-saving path). -/
def SAVE_ACTION : String := "SAVE_ACTION"

/-- Sets the status of the action matching the saved action's id to
`saved`, leaving other actions untouched. -/
def setActionSaved (saved : StoreAction) (act : StoreAction) : StoreAction :=
  if act.actionId = saved.actionId then
    { act with status := ActionStatus.saved }
  else act

/-- Applies `setActionSaved` across a project's actions. -/
def saveActionInProject (saved : StoreAction) (proj : Project) : Project :=
  { proj with actions := proj.actions.map (setActionSaved saved) }

/-- Modelled from the spec: the `user` reducer of `store/user_reducer`,
whose source file is missing from the corpus (only its unit tests are
present).  On `CREATE_PROJECT`, the supplied project becomes the sole
project when none exists, and the intent is a no-op otherwise
(first-project-wins).  On `EDIT_FIRST_PROJECT`, when the first project is
incomplete or no project exists, the projects sequence becomes the single
supplied project re-flagged incomplete (a full replace over defaults, so
fields absent from the payload are absent from the result); when the first
project is complete the intent is a no-op.  On `SAVE_ACTION`, the matching
action's status becomes `saved`.  Unrecognized intents return the input
state unchanged.  The reducer is total and never throws. -/
def user (state : UserState) (intent : Intent) : UserState :=
  if intent.type = CREATE_PROJECT then
    match state.projects with
    | some (_ :: _) => state
    | _ => { state with projects := some [intent.project.getD {}] }
  else if intent.type = EDIT_FIRST_PROJECT then
    match state.projects with
    | some (first :: _) =>
        if first.isIncomplete then
          { state with
            projects := some [{ intent.project.getD {} with
                                isIncomplete := true }] }
        else state
    | _ =>
        { state with
          projects := some [{ intent.project.getD {} with
                              isIncomplete := true }] }
  else if intent.type = SAVE_ACTION then
    match intent.action with
    | some a =>
        { state with
          projects :=
            state.projects.map fun ps => ps.map (saveActionInProject a) }
    | none => state
  else state

/-- The initial state of the `user` reducer: the empty object Redux passes
on first dispatch. -/
def initialUserState : UserState := {}

/-- Invariant: at most one project of the user is flagged incomplete. -/
def atMostOneIncomplete (state : UserState) : Prop :=
  ((state.projects.getD []).filter fun p => p.isIncomplete).length ≤ 1

/-! Concrete fixtures, mirroring the unit tests and the spec's examples. -/

/-- The error page of the spec's 404 example, with canonical tags. -/
def notFoundPage : Html :=
  Html.elem "HTML" [Html.elem "P" [Html.text "Not Found"]]

/-- A 404 response carrying the HTML error page; its body is not JSON. -/
def notFound404 : Response :=
  { status := 404, body := notFoundPage
    json := Except.error "SyntaxError: not JSON" }

/-- A successful response with an empty JSON object body. -/
def ok200 : Response :=
  { status := 200, body := Html.text "", json := Except.ok (Json.obj []) }

/-- A 500 response carrying an HTML error page. -/
def resp500 : Response :=
  { status := 500
    body := Html.elem "HTML" [Html.elem "P" [Html.text "Server Error"]]
    json := Except.error "SyntaxError: not JSON" }

/-- A fetch implementation whose server always answers with `resp500`. -/
def fetch500 : FetchImpl := fun _ => Except.ok resp500

/-- A fetch implementation whose server always answers with `ok200`. -/
def fetchOk200 : FetchImpl := fun _ => Except.ok ok200

/-- A likes payload for the `saveLikes` examples. -/
def likes0 : Json := Json.arr []

/-- The unknown intent of the unit tests. -/
def unknownIntent : Intent := { type := "SOME_UNKNOWN_ACTION" }

/-- The state of the unit tests with only an unrelated field. -/
def fooState : UserState := { otherFields := [("foo", "bar")] }

/-- The incomplete first project of the unit tests, with a target set. -/
def incompleteProj : Project :=
  { title := some "a project", target := some "job", isIncomplete := true }

/-- The complete first project of the unit tests. -/
def completeProj : Project := { title := some "a project" }

/-- The project payload of the unit tests. -/
def newProj : Project := { title := some "new project" }

/-- A user object carrying an `onboardingComplete` field. -/
def userFields0 : List (String × Json) :=
  [("userId", Json.str "42"), ("onboardingComplete", Json.bool true)]

/-! Helper lemmas shared by the claim theorems. -/

/-- A response with status in [200, 399] and a well-formed JSON body
resolves with the decoded body. -/
theorem handleJsonResponse_ok (r : Response) (v : Json)
    (h1 : 200 ≤ r.status) (h2 : r.status ≤ 399)
    (hv : r.json = Except.ok v) : handleJsonResponse r = Except.ok v := by
  unfold handleJsonResponse
  rw [if_neg, hv]
  push_neg
  exact ⟨by omega, by omega⟩

/-- A response with status outside [200, 399] rejects with the message
extracted from the HTML body. -/
theorem handleJsonResponse_err (r : Response)
    (h : 400 ≤ r.status ∨ r.status < 200) :
    handleJsonResponse r
      = Except.error (ApiError.http (cleanHtmlError r.body)) := by
  unfold handleJsonResponse
  rw [if_pos h]

/-! Claim theorems. -/

/-- C1: for every state `S` and every intent whose type tag is none of the
ones the user reducer recognizes, the reducer returns the input state `S`
itself, unchanged. -/
theorem user_unrecognized_intent_returns_state (S : UserState) (I : Intent)
    (h1 : I.type ≠ CREATE_PROJECT) (h2 : I.type ≠ EDIT_FIRST_PROJECT)
    (h3 : I.type ≠ SAVE_ACTION) : user S I = S := by
  unfold user
  rw [if_neg h1, if_neg h2, if_neg h3]

/-- Witness for C1: the unit tests' unknown intent applied to the unit
tests' state. -/
theorem user_unrecognized_intent_returns_state_witness :
    unknownIntent.type ≠ CREATE_PROJECT ∧
      user fooState unknownIntent = fooState :=
  ⟨by decide,
   user_unrecognized_intent_returns_state fooState unknownIntent
     (by decide) (by decide) (by decide)⟩

/-- C3: on a `CREATE_PROJECT` intent carrying project `p`, the reducer
makes `p` the sole project when the state has no projects (absent or
empty), and returns the state unchanged when a project already exists
(first-project-wins). -/
theorem user_createProject_firstWins (S : UserState) (I : Intent)
    (p : Project) (hI : I.type = CREATE_PROJECT)
    (hp : I.project = some p) :
    ((S.projects = none ∨ S.projects = some []) →
      user S I = { S with projects := some [p] }) ∧
    (∀ q rest, S.projects = some (q :: rest) → user S I = S) := by
  constructor
  · intro h
    unfold user
    rw [hI, if_pos rfl, hp]
    rcases h with h | h <;> rw [h] <;> rfl
  · intro q rest h
    unfold user
    rw [hI, if_pos rfl, h]

/-- Witness for C3: both unit-test scenarios, adding a first project to the
project-less state and ignoring a second project. -/
theorem user_createProject_firstWins_witness :
    user fooState { type := CREATE_PROJECT, project := some newProj }
        = { fooState with projects := some [newProj] } ∧
      user { fooState with projects := some [completeProj] }
          { type := CREATE_PROJECT, project := some newProj }
        = { fooState with projects := some [completeProj] } :=
  ⟨(user_createProject_firstWins fooState
      { type := CREATE_PROJECT, project := some newProj } newProj
      rfl rfl).1 (Or.inl rfl),
   (user_createProject_firstWins
      { fooState with projects := some [completeProj] }
      { type := CREATE_PROJECT, project := some newProj } newProj
      rfl rfl).2 completeProj [] rfl⟩

/-- C7: on an `EDIT_FIRST_PROJECT` intent, when the first project exists
and is not flagged incomplete, the reducer is a silent no-op: the whole
state is returned unchanged, and since the reducer is a total function no
error can be raised. -/
theorem user_editFirstProject_complete_noop (S : UserState) (I : Intent)
    (first : Project) (rest : List Project)
    (hI : I.type = EDIT_FIRST_PROJECT)
    (h : S.projects = some (first :: rest))
    (hc : first.isIncomplete = false) : user S I = S := by
  unfold user
  rw [hI, if_neg (by decide), if_pos rfl, h]
  simp [hc]

/-- Witness for C7: the unit tests' complete-project state is untouched by
an edit intent. -/
theorem user_editFirstProject_complete_noop_witness :
    completeProj.isIncomplete = false ∧
      user { fooState with projects := some [completeProj] }
          { type := EDIT_FIRST_PROJECT, project := some newProj }
        = { fooState with projects := some [completeProj] } :=
  ⟨rfl,
   user_editFirstProject_complete_noop
     { fooState with projects := some [completeProj] }
     { type := EDIT_FIRST_PROJECT, project := some newProj }
     completeProj [] rfl rfl rfl⟩

/-- C2: on an `EDIT_FIRST_PROJECT` intent carrying project `p`, when the
first project is flagged incomplete, or no project exists (absent or empty
sequence), the projects sequence becomes exactly the single project built
from `p` re-flagged incomplete.  The equality is a full replace: every
field of the resulting project other than `isIncomplete` equals the
corresponding field of `p`, so a previously set `target` absent from `p`
is absent from the result; all other fields of the state are unchanged. -/
theorem user_editFirstProject_replace (S : UserState) (I : Intent)
    (p : Project) (hI : I.type = EDIT_FIRST_PROJECT)
    (hp : I.project = some p)
    (h : S.projects = none ∨ S.projects = some [] ∨
      ∃ first rest, S.projects = some (first :: rest) ∧
        first.isIncomplete = true) :
    user S I = { S with projects := some [{ p with isIncomplete := true }] }
    := by
  unfold user
  rw [hI, if_neg (by decide), if_pos rfl, hp]
  rcases h with h | h | ⟨first, rest, h, hinc⟩ <;> rw [h]
  · rfl
  · rfl
  · simp [hinc]

/-- Witness for C2: both unit-test scenarios — editing the incomplete
project (whose `target` is dropped), and creating an incomplete project on
the first edit. -/
theorem user_editFirstProject_replace_witness :
    incompleteProj.isIncomplete = true ∧
      user { fooState with projects := some [incompleteProj] }
          { type := EDIT_FIRST_PROJECT, project := some newProj }
        = { fooState with
            projects := some [{ newProj with isIncomplete := true }] } ∧
      user fooState { type := EDIT_FIRST_PROJECT, project := some newProj }
        = { fooState with
            projects := some [{ newProj with isIncomplete := true }] } :=
  ⟨rfl,
   user_editFirstProject_replace
     { fooState with projects := some [incompleteProj] }
     { type := EDIT_FIRST_PROJECT, project := some newProj } newProj
     rfl rfl (Or.inr (Or.inr ⟨incompleteProj, [], rfl, rfl⟩)),
   user_editFirstProject_replace fooState
     { type := EDIT_FIRST_PROJECT, project := some newProj } newProj
     rfl rfl (Or.inl rfl)⟩

/-- Characterization of the reducer on a `SAVE_ACTION` intent carrying an
action payload. -/
theorem user_saveAction_eq (S : UserState) (I : Intent) (a : StoreAction)
    (hI : I.type = SAVE_ACTION) (ha : I.action = some a) :
    user S I
      = { S with
          projects :=
            S.projects.map fun ps => ps.map (saveActionInProject a) } := by
  unfold user
  rw [hI, if_neg (by decide), if_neg (by decide), if_pos rfl, ha]

/-- Characterization of the reducer on a `SAVE_ACTION` intent carrying no
action payload. -/
theorem user_saveAction_none (S : UserState) (I : Intent)
    (hI : I.type = SAVE_ACTION) (ha : I.action = none) : user S I = S := by
  unfold user
  rw [hI, if_neg (by decide), if_neg (by decide), if_pos rfl, ha]

/-- Saving the same action twice in a row leaves an action unchanged the
second time. -/
theorem setActionSaved_idem (a act : StoreAction) :
    setActionSaved a (setActionSaved a act) = setActionSaved a act := by
  unfold setActionSaved
  by_cases h : act.actionId = a.actionId <;> simp [h]

/-- Saving the same action twice in a row leaves a project unchanged the
second time. -/
theorem saveActionInProject_idem (a : StoreAction) (proj : Project) :
    saveActionInProject a (saveActionInProject a proj)
      = saveActionInProject a proj := by
  unfold saveActionInProject
  simp [List.map_map]
  exact fun x _ => setActionSaved_idem a x

/-- C8: dispatching the same `SAVE_ACTION` intent twice with an identical
payload yields the same final state as dispatching it once; in particular
the second dispatch adds no entries. -/
theorem user_saveAction_idempotent (S : UserState) (I : Intent)
    (hI : I.type = SAVE_ACTION) : user (user S I) I = user S I := by
  cases ha : I.action with
  | none =>
      rw [user_saveAction_none S I hI ha, user_saveAction_none S I hI ha]
  | some a =>
      rw [user_saveAction_eq (user S I) I a hI ha,
        user_saveAction_eq S I a hI ha]
      congr 1
      show (Option.map _ S.projects).map _ = Option.map _ S.projects
      cases S.projects with
      | none => rfl
      | some ps =>
          show some _ = some _
          congr 1
          show List.map (saveActionInProject a)
              (List.map (saveActionInProject a) ps)
            = List.map (saveActionInProject a) ps
          rw [List.map_map]
          exact List.map_congr_left fun x _ => saveActionInProject_idem a x

/-- Witness for C8: saving an action twice in a concrete two-action
project. -/
theorem user_saveAction_idempotent_witness :
    Intent.type
        { type := SAVE_ACTION, action := some { actionId := "a1" } }
      = SAVE_ACTION ∧
    user
        (user
          { projects :=
              some [{ title := some "a project",
                      actions := [{ actionId := "a1" },
                                  { actionId := "a2" }] }] }
          { type := SAVE_ACTION, action := some { actionId := "a1" } })
        { type := SAVE_ACTION, action := some { actionId := "a1" } }
      = user
          { projects :=
              some [{ title := some "a project",
                      actions := [{ actionId := "a1" },
                                  { actionId := "a2" }] }] }
          { type := SAVE_ACTION, action := some { actionId := "a1" } } :=
  ⟨rfl,
   user_saveAction_idempotent
     { projects :=
         some [{ title := some "a project",
                 actions := [{ actionId := "a1" },
                             { actionId := "a2" }] }] }
     { type := SAVE_ACTION, action := some { actionId := "a1" } } rfl⟩

/-- A state whose projects were just replaced by a single project
satisfies the at-most-one-incomplete invariant. -/
theorem atMostOneIncomplete_singleton (S : UserState) (p : Project) :
    atMostOneIncomplete { S with projects := some [p] } := by
  unfold atMostOneIncomplete
  show (List.filter _ [p]).length ≤ 1
  exact le_trans (List.length_filter_le _ _) (by simp)

/-- C4: the reducer preserves the at-most-one-incomplete-project invariant
across every operation, and consequently every state reachable from the
initial state by a sequence of dispatched intents satisfies it. -/
theorem user_atMostOneIncomplete_invariant :
    (∀ S I, atMostOneIncomplete S → atMostOneIncomplete (user S I)) ∧
    ∀ intents : List Intent,
      atMostOneIncomplete (List.foldl user initialUserState intents) := by
  have pres : ∀ S I,
      atMostOneIncomplete S → atMostOneIncomplete (user S I) := by
    intro S I hS
    unfold user
    by_cases h1 : I.type = CREATE_PROJECT
    · rw [if_pos h1]
      cases hp : S.projects with
      | none => exact atMostOneIncomplete_singleton S _
      | some ps =>
          cases ps with
          | nil => exact atMostOneIncomplete_singleton S _
          | cons q qs => exact hS
    · rw [if_neg h1]
      by_cases h2 : I.type = EDIT_FIRST_PROJECT
      · rw [if_pos h2]
        cases hp : S.projects with
        | none => exact atMostOneIncomplete_singleton S _
        | some ps =>
            cases ps with
            | nil => exact atMostOneIncomplete_singleton S _
            | cons q qs =>
                show atMostOneIncomplete
                  (if q.isIncomplete = true then
                    { S with
                      projects := some [{ I.project.getD {} with
                                          isIncomplete := true }] }
                  else S)
                by_cases hq : q.isIncomplete = true
                · rw [if_pos hq]
                  exact atMostOneIncomplete_singleton S _
                · rw [if_neg hq]
                  exact hS
      · rw [if_neg h2]
        by_cases h3 : I.type = SAVE_ACTION
        · rw [if_pos h3]
          cases ha : I.action with
          | none => exact hS
          | some a =>
              cases hp : S.projects with
              | none => exact Nat.zero_le 1
              | some ps =>
                  unfold atMostOneIncomplete at hS ⊢
                  rw [hp] at hS
                  show ((ps.map (saveActionInProject a)).filter
                      fun p => p.isIncomplete).length ≤ 1
                  rw [List.filter_map, List.length_map]
                  exact hS
        · rw [if_neg h3]
          exact hS
  refine ⟨pres, ?_⟩
  intro intents
  suffices h : ∀ T, atMostOneIncomplete T →
      atMostOneIncomplete (List.foldl user T intents) from
    h initialUserState (Nat.zero_le 1)
  induction intents with
  | nil => intro T hT; simpa using hT
  | cons i is ih => intro T hT; exact ih (user T i) (pres T i hT)

/-- Witness for C4: preservation applied to a concrete edit intent on the
empty test state, and reachability along a concrete dispatch sequence. -/
theorem user_atMostOneIncomplete_invariant_witness :
    atMostOneIncomplete
        (user fooState
          { type := EDIT_FIRST_PROJECT, project := some newProj }) ∧
      atMostOneIncomplete
        (List.foldl user initialUserState
          [{ type := CREATE_PROJECT, project := some newProj },
           { type := EDIT_FIRST_PROJECT, project := some incompleteProj }])
    :=
  ⟨user_atMostOneIncomplete_invariant.1 fooState
     { type := EDIT_FIRST_PROJECT, project := some newProj }
     (Nat.zero_le 1),
   user_atMostOneIncomplete_invariant.2
     [{ type := CREATE_PROJECT, project := some newProj },
      { type := EDIT_FIRST_PROJECT, project := some incompleteProj }]⟩

/-- C5: a response handled by an API call expecting JSON resolves with the
decoded JSON body when the status is in [200, 399] and rejects with the
human-readable message extracted from the HTML body otherwise; in
particular the 404 response whose body is
`<html><p>Not Found</p></html>` rejects with the message `Not Found`. -/
theorem handleJsonResponse_contract (r : Response) :
    (∀ v, 200 ≤ r.status → r.status ≤ 399 → r.json = Except.ok v →
      handleJsonResponse r = Except.ok v) ∧
    ((400 ≤ r.status ∨ r.status < 200) →
      handleJsonResponse r
        = Except.error (ApiError.http (cleanHtmlError r.body))) ∧
    handleJsonResponse notFound404
      = Except.error (ApiError.http "Not Found") :=
  ⟨fun v h1 h2 hv => handleJsonResponse_ok r v h1 h2 hv,
   fun h => handleJsonResponse_err r h,
   rfl⟩

/-- Witness for C5: a concrete 200 response resolving with its JSON body,
and the spec's 404 example. -/
theorem handleJsonResponse_contract_witness :
    handleJsonResponse ok200 = Except.ok (Json.obj []) ∧
      handleJsonResponse notFound404
        = Except.error (ApiError.http "Not Found") :=
  ⟨(handleJsonResponse_contract ok200).1 (Json.obj [])
     (by decide) (by decide) rfl,
   (handleJsonResponse_contract ok200).2.2⟩

/-- C9: a delete call builds a DELETE request and always expects a JSON
response: when the server answers, it resolves with the decoded JSON body
for a status in [200, 399] and rejects with the extracted error message
otherwise — the same contract `handleJsonResponse` gives a post expecting
a response. -/
theorem deleteJson_contract (host path : String) (d : Json) :
    (deleteRequest host path d).method = "delete" ∧
    (∀ f : FetchImpl, ∀ r v,
      f (deleteRequest host path d) = Except.ok r →
      200 ≤ r.status → r.status ≤ 399 → r.json = Except.ok v →
      deleteJson f host path d = Except.ok v) ∧
    (∀ f : FetchImpl, ∀ r,
      f (deleteRequest host path d) = Except.ok r →
      (400 ≤ r.status ∨ r.status < 200) →
      deleteJson f host path d
        = Except.error (ApiError.http (cleanHtmlError r.body))) := by
  refine ⟨rfl, ?_, ?_⟩
  · intro f r v hf h1 h2 hv
    unfold deleteJson
    rw [hf]
    exact handleJsonResponse_ok r v h1 h2 hv
  · intro f r hf h
    unfold deleteJson
    rw [hf]
    exact handleJsonResponse_err r h

/-- Witness for C9: a concrete delete resolving against a 200 server and
rejecting against a 500 server. -/
theorem deleteJson_contract_witness :
    deleteJson fetchOk200 "https://h" "/api/user" (Json.obj [])
        = Except.ok (Json.obj []) ∧
      deleteJson fetch500 "https://h" "/api/user" (Json.obj [])
        = Except.error (ApiError.http (cleanHtmlError resp500.body)) :=
  ⟨(deleteJson_contract "https://h" "/api/user" (Json.obj [])).2.1
     fetchOk200 ok200 (Json.obj []) rfl (by decide) (by decide) rfl,
   (deleteJson_contract "https://h" "/api/user" (Json.obj [])).2.2
     fetch500 resp500 rfl (Or.inl (by decide))⟩

/-- Counterexample to C6: `saveLikes` posts without expecting a response,
so a server answer with HTTP status 500 resolves with the raw response —
it is not surfaced as a rejected future. -/
theorem saveLikes_httpError_resolves :
    resp500.status = 500 ∧
      saveLikes fetch500 "https://h" "user-1" likes0
        = PostOutcome.response resp500 ∧
      PostOutcome.isRejected
          (saveLikes fetch500 "https://h" "user-1" likes0) = false :=
  ⟨rfl, rfl, rfl⟩

/-- C6 (amended): when the server answers with an HTTP status of 400 or
above, API operations that expect a JSON response (posts with
`isExpectingResponse`, deletes, and gets) reject with the extracted error
message, while posts not expecting a response — `saveLikes` and
`feedbackPost` — resolve with the raw response regardless of the
status. -/
theorem apiClient_httpError_surfacing (f : FetchImpl) (r : Response)
    (hf : ∀ req, f req = Except.ok r) (hstatus : 400 ≤ r.status) :
    (∀ host path d, postJson f host path d true
      = PostOutcome.error (ApiError.http (cleanHtmlError r.body))) ∧
    (∀ host path d, deleteJson f host path d
      = Except.error (ApiError.http (cleanHtmlError r.body))) ∧
    (∀ host path, getJson f host path
      = Except.error (ApiError.http (cleanHtmlError r.body))) ∧
    (∀ host uid likes,
      saveLikes f host uid likes = PostOutcome.response r) ∧
    (∀ host fb, feedbackPost f host fb = PostOutcome.response r) := by
  refine ⟨?_, ?_, ?_, ?_, ?_⟩
  · intro host path d
    simp [postJson, sendRequest, hf,
      handleJsonResponse_err r (Or.inl hstatus)]
  · intro host path d
    simp [deleteJson, hf, handleJsonResponse_err r (Or.inl hstatus)]
  · intro host path
    simp [getJson, hf, handleJsonResponse_err r (Or.inl hstatus)]
  · intro host uid likes
    simp [saveLikes, postJson, sendRequest, hf]
  · intro host fb
    simp [feedbackPost, postJson, sendRequest, hf]

/-- Witness for the amended C6: against a server that always answers with
the 500 response, `saveLikes` resolves with the raw response while a post
expecting a response and a get both reject. -/
theorem apiClient_httpError_surfacing_witness :
    saveLikes fetch500 "https://h" "user-2" likes0
        = PostOutcome.response resp500 ∧
      postJson fetch500 "https://h" "/api/user" none true
        = PostOutcome.error
            (ApiError.http (cleanHtmlError resp500.body)) ∧
      getJson fetch500 "https://h" "/api/user/42"
        = Except.error
            (ApiError.http (cleanHtmlError resp500.body)) :=
  ⟨(apiClient_httpError_surfacing fetch500 resp500 (fun _ => rfl)
      (by decide)).2.2.2.1 "https://h" "user-2" likes0,
   (apiClient_httpError_surfacing fetch500 resp500 (fun _ => rfl)
      (by decide)).1 "https://h" "/api/user" none,
   (apiClient_httpError_surfacing fetch500 resp500 (fun _ => rfl)
      (by decide)).2.2.1 "https://h" "/api/user/42"⟩

/-- C10: the body `userPost` sends to POST `/api/user` is the input user
object with the `onboardingComplete` field removed: every other field is
carried over unchanged, every field of the body comes from the input, and
`onboardingComplete` is never among the transmitted fields. -/
theorem userPost_strips_onboardingComplete (host : String)
    (u : List (String × Json)) :
    (userPostRequest host u).url = host ++ "/api/user" ∧
    (userPostRequest host u).method = "post" ∧
    (userPostRequest host u).body
      = some (Json.obj (removeObjField "onboardingComplete" u)) ∧
    (∀ kv ∈ removeObjField "onboardingComplete" u,
      kv ∈ u ∧ kv.fst ≠ "onboardingComplete") ∧
    (∀ kv ∈ u, kv.fst ≠ "onboardingComplete" →
      kv ∈ removeObjField "onboardingComplete" u) ∧
    ∀ f, userPost f host u = sendRequest f (userPostRequest host u) true
    := by
  refine ⟨rfl, rfl, rfl, ?_, ?_, fun f => rfl⟩
  · intro kv hkv
    unfold removeObjField at hkv
    rw [List.mem_filter] at hkv
    exact ⟨hkv.1, by simpa using hkv.2⟩
  · intro kv hku hne
    unfold removeObjField
    rw [List.mem_filter]
    exact ⟨hku, by simpa using hne⟩

/-- Witness for C10: a concrete user object whose `onboardingComplete`
field is stripped while its `userId` field is carried over. -/
theorem userPost_strips_onboardingComplete_witness :
    (userPostRequest "https://h" userFields0).body
        = some (Json.obj (removeObjField "onboardingComplete"
            userFields0)) ∧
      (userPostRequest "https://h" userFields0).method = "post" ∧
      removeObjField "onboardingComplete" userFields0
        = [("userId", Json.str "42")] :=
  ⟨(userPost_strips_onboardingComplete "https://h" userFields0).2.2.1,
   (userPost_strips_onboardingComplete "https://h" userFields0).2.1,
   rfl⟩

end BobEmploi
